import Mathlib

/-!
Feather-Huzzah, `Feather_AQI_Monitor/secrets_TEMPLATE.h`.

The header is data only: comments and five initialised declarations.  It is
embedded as the sequence of its top-level items, each declaration carrying
its C++ type (with its `const` qualifiers exactly where the source writes
them), its identifier and its initialiser literal.
-/

namespace FeatherAQI

/-! ## Data model -/

/-- Type specifiers that occur in the header. -/
inductive BaseType
  | char
  | int
  | String
  deriving DecidableEq, Repr

/-- A declared C++ type: the base specifier, whether `const` qualifies the
base specifier, whether the declarator is a pointer (`*`), and whether the
pointer itself is `const` (`* const`). -/
structure CType where
  base : BaseType
  baseConst : Bool
  pointer : Bool
  ptrConst : Bool
  deriving DecidableEq, Repr

/-- Initialiser literals: a string literal or a decimal integer literal. -/
inductive Literal
  | str (s : String)
  | int (n : Int)
  deriving DecidableEq, Repr

/-- One initialised declaration `type name = init;`. -/
structure Decl where
  ty : CType
  name : String
  init : Literal
  deriving DecidableEq, Repr

/-- The type written `const char*`: a non-const pointer to const `char`. -/
def constCharPtr : CType := ⟨BaseType.char, true, true, false⟩

/-- The type written `const int`. -/
def constInt : CType := ⟨BaseType.int, true, false, false⟩

/-- The type written `String` (the Arduino string class, unqualified). -/
def arduinoString : CType := ⟨BaseType.String, false, false, false⟩

/-- Source line 16: `const char* ssid     = "YOUR_SSID_GOES_HERE";` -/
def ssid : Decl := ⟨constCharPtr, "ssid", Literal.str "YOUR_SSID_GOES_HERE"⟩

/-- Source line 17: `const char* password = "YOUR_WIFI_PASSWORD_GOES_HERE";` -/
def password : Decl :=
  ⟨constCharPtr, "password", Literal.str "YOUR_WIFI_PASSWORD_GOES_HERE"⟩

/-- Source line 22: `const char* dweetName = "DWEET_THING_NAME";` -/
def dweetName : Decl := ⟨constCharPtr, "dweetName", Literal.str "DWEET_THING_NAME"⟩

/-- Source line 23: `const int channelID   = 1234567;` -/
def channelID : Decl := ⟨constInt, "channelID", Literal.int 1234567⟩

/-- Source line 24: `String writeAPIKey    = "CHANNELWRITEAPIKEY";` -/
def writeAPIKey : Decl :=
  ⟨arduinoString, "writeAPIKey", Literal.str "CHANNELWRITEAPIKEY"⟩

/-- Top-level constructs of a header.  A `check` stands for any construct
that can reject a configuration at build time (`static_assert`, or
`#if ... #error`); its argument is the condition on the declared values. -/
inductive Item
  | comment
  | decl (d : Decl)
  | check (cond : List Decl → Bool)

/-- The header `secrets_TEMPLATE.h`, item by item in source order: the
leading block comment (lines 1-13), a line comment (15), two declarations
(16, 17), a line comment (20), a block comment (21), then three declarations
(22, 23, 24), the last two each followed by a trailing line comment. -/
def secrets_TEMPLATE : List Item :=
  [ Item.comment,
    Item.comment,
    Item.decl ssid,
    Item.decl password,
    Item.comment,
    Item.comment,
    Item.decl dweetName,
    Item.decl channelID,
    Item.comment,
    Item.decl writeAPIKey,
    Item.comment ]

/-- The declarations of a header, in order. -/
def decls : List Item → List Decl
  | [] => []
  | Item.decl d :: rest => d :: decls rest
  | _ :: rest => decls rest

/-- The build-time checks of a header, in order. -/
def checks : List Item → List (List Decl → Bool)
  | [] => []
  | Item.check c :: rest => c :: checks rest
  | _ :: rest => checks rest

/-- The initialiser of the declaration called `name`, if there is one. -/
def initOf (name : String) : List Decl → Option Literal
  | [] => none
  | d :: rest => if d.name = name then some d.init else initOf name rest

/-- The type of the declaration called `name`, if there is one. -/
def typeOf (name : String) : List Decl → Option CType
  | [] => none
  | d :: rest => if d.name = name then some d.ty else typeOf name rest

/-- The two kinds of value the data model distinguishes. -/
inductive Kind
  | text
  | integer
  deriving DecidableEq, Repr

/-- The kind of value a declared type holds: a pointer to `char` and a
`String` hold text, a plain `int` holds an integer. -/
def kindOf (t : CType) : Option Kind :=
  match t.base, t.pointer with
  | BaseType.char, true => some Kind.text
  | BaseType.String, false => some Kind.text
  | BaseType.int, false => some Kind.integer
  | _, _ => none

/-! ## The placeholder marker -/

/-- Whether the character list `pat` is an initial segment of `s`. -/
def startsWith : List Char → List Char → Bool
  | _, [] => true
  | [], _ :: _ => false
  | c :: s, p :: pat => decide (c = p) && startsWith s pat

/-- Whether `pat` occurs in `s` as a block of consecutive characters. -/
def occursIn (pat : List Char) : List Char → Bool
  | [] => startsWith [] pat
  | c :: s => startsWith (c :: s) pat || occursIn pat s

/-- Whether the string `s` contains `pat` as a substring. -/
def containsSubstring (s pat : String) : Bool :=
  occursIn pat.toList s.toList

/-- Whether the initialiser of a declaration is a string literal that
contains the marker `GOES_HERE`. -/
def hasMarker (d : Decl) : Bool :=
  match d.init with
  | Literal.str s => containsSubstring s "GOES_HERE"
  | Literal.int _ => false

/-! ## Deriving `secrets.h` -/

/-- Replace the initialiser of a declaration item called `name` by `v`; the
type and the identifier are kept, and every other item is left alone. -/
def setInitItem (name : String) (v : Literal) : Item → Item
  | Item.decl d => if d.name = name then Item.decl ⟨d.ty, d.name, v⟩ else Item.decl d
  | i => i

/-- Replace the initialiser of the declaration called `name` throughout a
header. -/
def setInit (name : String) (v : Literal) (h : List Item) : List Item :=
  h.map (setInitItem name v)

/-- Modelled from the spec: the derived file `secrets.h`, which the
repository deliberately does not contain.  The header comment (source lines
6-9) and the spec describe it as a copy of the template in which the five
placeholder values have been replaced by the developer; here the five
initialisers are replaced by identifier, one after the other. -/
def copyAndEdit (h : List Item) (newSsid newPassword newDweetName : String)
    (newChannelID : Int) (newWriteAPIKey : String) : List Item :=
  setInit "writeAPIKey" (Literal.str newWriteAPIKey)
    (setInit "channelID" (Literal.int newChannelID)
      (setInit "dweetName" (Literal.str newDweetName)
        (setInit "password" (Literal.str newPassword)
          (setInit "ssid" (Literal.str newSsid) h))))

/-- Whether every check of the header `h` holds of the declared values
`cfg`. -/
def admits (h : List Item) (cfg : List Decl) : Bool :=
  (checks h).all (fun c => c cfg)

/-- A header is accepted by the build when each of its checks holds of its
own declarations. -/
def accepted (h : List Item) : Bool :=
  admits h (decls h)

/-! ## Constness -/

/-- Whether the declared object itself is `const`: for a pointer declarator
that is the `const` after the `*`, otherwise the `const` on the base
specifier. -/
def isConstObject (t : CType) : Bool :=
  if t.pointer then t.ptrConst else t.baseConst

/-- Whether the declared object is a pointer whose target is `const`: the
characters it points at cannot be written through it. -/
def pointsToConst (t : CType) : Bool :=
  t.pointer && t.baseConst

/-- The kind of a literal. -/
def Literal.kind : Literal → Kind
  | Literal.str _ => Kind.text
  | Literal.int _ => Kind.integer

/-- Replace the initialiser of the declaration called `name` in a list of
declarations. -/
def setValue (name : String) (v : Literal) : List Decl → List Decl
  | [] => []
  | d :: rest =>
    (if d.name = name then ⟨d.ty, d.name, v⟩ else d) :: setValue name v rest

/-- The C++ assignment statement `name = v;` executed on the variables
`env`.  It is ill-formed (`none`) when no variable of that name is declared
or when the variable is a `const` object.  Otherwise it is accepted when `v`
is of the kind the variable holds, and also when the variable is a pointer
and `v` is the literal `0` (the null pointer constant); the variable holds
`v` afterwards.  Every other assignment is ill-formed. -/
def assign (name : String) (v : Literal) (env : List Decl) : Option (List Decl) :=
  match typeOf name env with
  | none => none
  | some t =>
    if isConstObject t then none
    else if kindOf t = some v.kind then some (setValue name v env)
    else if t.pointer && decide (v = Literal.int 0) then some (setValue name v env)
    else none

/-! ## Integer width -/

/-- The value an `int` of `w` bits holds after it is initialised with the
integer `v`: `v` reduced modulo `2 ^ w` into the signed range
`-2 ^ (w - 1) .. 2 ^ (w - 1) - 1`. -/
def storeInt (w : Nat) (v : Int) : Int :=
  let r := v % 2 ^ w
  if r < 2 ^ (w - 1) then r else r - 2 ^ w

/-- The value an integer declaration holds on a target whose `int` has `w`
bits; `none` for a declaration that is not initialised with an integer. -/
def storedValue (w : Nat) (d : Decl) : Option Int :=
  match d.init with
  | Literal.int n => some (storeInt w n)
  | Literal.str _ => none

/-- The width in bits of a machine integer type is a power of two:
`intWidth k` is `2 ^ k`, which is 8, 16, 32, 64 for `k` from 3 to 6.  The
header needs the Arduino `String` class, and the `int` of an Arduino target
has 16 bits (AVR boards) or 32 bits (ESP8266, which is the Feather Huzzah,
and ARM boards). -/
def intWidth (k : Nat) : Nat := 2 ^ k

/-- The NUL character, which ends a C string. -/
def nul : Char := Char.ofNat 0

/-- The text a string literal designates when it is read as a C string: its
characters up to the first NUL.  A `const char*` is read that way, and an
Arduino `String` built from a literal copies that much. -/
def cText (s : String) : String :=
  String.mk (s.toList.takeWhile (fun ch => decide (ch ≠ nul)))

/-- The value a declared object holds once the header is built for a target
whose `int` has `w` bits: an integer initialiser is converted to `int`, a
string initialiser is read as a C string. -/
def heldValue (w : Nat) (d : Decl) : Literal :=
  match d.init with
  | Literal.int n => Literal.int (storeInt w n)
  | Literal.str s => Literal.str (cText s)

/-! ## Auxiliary lemmas -/

theorem startsWith_iff (s pat : List Char) : startsWith s pat = true ↔ pat <+: s := by
  induction pat generalizing s with
  | nil => simp [startsWith]
  | cons p pat ih =>
    cases s with
    | nil => simp [startsWith]
    | cons c s =>
      simp only [startsWith, Bool.and_eq_true, decide_eq_true_eq, ih, List.cons_prefix_cons]
      constructor
      · rintro ⟨h1, h2⟩; exact ⟨h1.symm, h2⟩
      · rintro ⟨h1, h2⟩; exact ⟨h1.symm, h2⟩

/-- The function `occursIn` decides the contiguous-sublist relation, so
`containsSubstring` is the substring test. -/
theorem occursIn_iff (pat s : List Char) : occursIn pat s = true ↔ pat <:+: s := by
  induction s with
  | nil => cases pat <;> simp [occursIn, startsWith]
  | cons c s ih =>
    simp [occursIn, ih, startsWith_iff, List.infix_cons_iff]

/-- The declarations of a derived header, computed. -/
theorem decls_copyAndEdit (s p d : String) (c : Int) (k : String) :
    decls (copyAndEdit secrets_TEMPLATE s p d c k) =
      [ ⟨constCharPtr, "ssid", Literal.str s⟩,
        ⟨constCharPtr, "password", Literal.str p⟩,
        ⟨constCharPtr, "dweetName", Literal.str d⟩,
        ⟨constInt, "channelID", Literal.int c⟩,
        ⟨arduinoString, "writeAPIKey", Literal.str k⟩ ] := by
  simp [copyAndEdit, setInit, setInitItem, secrets_TEMPLATE, decls, ssid, password,
    dweetName, channelID, writeAPIKey]

/-- A derived header has no more checks than the template: none. -/
theorem checks_copyAndEdit (s p d : String) (c : Int) (k : String) :
    checks (copyAndEdit secrets_TEMPLATE s p d c k) = [] := by
  simp [copyAndEdit, setInit, setInitItem, secrets_TEMPLATE, checks, ssid, password,
    dweetName, channelID, writeAPIKey]

/-- An integer in the range of a `w`-bit `int` is stored unchanged. -/
theorem storeInt_of_inRange (w : Nat) (c : Int) (hw : 0 < w)
    (hlo : -(2 : Int) ^ (w - 1) ≤ c) (hhi : c < (2 : Int) ^ (w - 1)) :
    storeInt w c = c := by
  have hpow : (2 : Int) ^ w = 2 * 2 ^ (w - 1) := by
    obtain ⟨m, rfl⟩ : ∃ m, w = m + 1 := ⟨w - 1, by omega⟩
    simp [pow_succ, mul_comm]
  have hpos : (0 : Int) < 2 ^ (w - 1) := by positivity
  unfold storeInt
  by_cases h0 : 0 ≤ c
  · have hmod : c % 2 ^ w = c := Int.emod_eq_of_lt h0 (by omega)
    simp only [hmod]
    rw [if_pos hhi]
  · have hmod : c % 2 ^ w = c + 2 ^ w := by
      rw [← Int.add_emod_self]
      exact Int.emod_eq_of_lt (by omega) (by omega)
    simp only [hmod]
    rw [if_neg (by omega)]
    omega

/-- A string without a NUL character is read as a C string in full. -/
theorem cText_of_no_nul (s : String) (h : nul ∉ s.toList) : cText s = s := by
  have hall : s.toList.takeWhile (fun ch => decide (ch ≠ nul)) = s.toList := by
    rw [List.takeWhile_eq_self_iff]
    intro ch hch
    simp only [ne_eq, decide_eq_true_eq]
    intro hEq
    exact h (hEq ▸ hch)
  unfold cText
  rw [hall]
  rfl

/-- The channelID literal is held exactly by an `int` of `w` bits precisely
when `w` is at least 22 (2^21 is the first power of two above 1234567). -/
theorem storedValue_channelID_iff (w : Nat) :
    storedValue w channelID = some 1234567 ↔ 22 ≤ w := by
  simp only [storedValue, channelID, Option.some.injEq]
  constructor
  · intro h
    by_contra hw
    have hw2 : w < 22 := by omega
    interval_cases w <;> simp [storeInt] at h
  · intro hw
    have h1 : (2 : Int) ^ 22 ≤ 2 ^ w := pow_le_pow_right₀ (by norm_num) hw
    have h2 : (2 : Int) ^ 21 ≤ 2 ^ (w - 1) := pow_le_pow_right₀ (by norm_num) (by omega)
    have h3 : (1234567 : Int) % 2 ^ w = 1234567 :=
      Int.emod_eq_of_lt (by norm_num) (by norm_num at h1 ⊢; omega)
    simp only [storeInt, h3]
    rw [if_pos]
    norm_num at h2 ⊢; omega

/-! ## The claims -/

/-- C1: the template declares exactly five values, named ssid, password,
dweetName, channelID and writeAPIKey in this order; ssid, password, dweetName
and writeAPIKey hold text and channelID holds an integer; their template
values are the four placeholder strings and the number 1234567. -/
theorem template_declares_five_values :
    (decls secrets_TEMPLATE).length = 5 ∧
    (decls secrets_TEMPLATE).map (fun d => (d.name, kindOf d.ty, d.init)) =
      [ ("ssid", some Kind.text, Literal.str "YOUR_SSID_GOES_HERE"),
        ("password", some Kind.text, Literal.str "YOUR_WIFI_PASSWORD_GOES_HERE"),
        ("dweetName", some Kind.text, Literal.str "DWEET_THING_NAME"),
        ("channelID", some Kind.integer, Literal.int 1234567),
        ("writeAPIKey", some Kind.text, Literal.str "CHANNELWRITEAPIKEY") ] ∧
    (decls secrets_TEMPLATE).map (fun d => d.ty) =
      [constCharPtr, constCharPtr, constCharPtr, constInt, arduinoString] := by
  decide

/-- C2, as stated, fails: it is not the case that every text-valued
declaration of the template has an initialiser containing `GOES_HERE`
(dweetName is `DWEET_THING_NAME`). -/
theorem not_every_placeholder_has_marker :
    ¬ (∀ d ∈ decls secrets_TEMPLATE, kindOf d.ty = some Kind.text → hasMarker d = true) := by
  intro h
  exact absurd (h dweetName (by decide) (by decide)) (by decide)

/-- C2, amended: the text-valued declarations of the template are ssid,
password, dweetName and writeAPIKey; the placeholders of ssid and password
contain the substring `GOES_HERE`, those of dweetName and writeAPIKey do
not. -/
theorem marker_only_in_wifi_placeholders :
    (decls secrets_TEMPLATE).filter (fun d => decide (kindOf d.ty = some Kind.text)) =
      [ssid, password, dweetName, writeAPIKey] ∧
    hasMarker ssid = true ∧ hasMarker password = true ∧
    hasMarker dweetName = false ∧ hasMarker writeAPIKey = false := by
  decide

/-- C3, as stated, fails, on a target whose `int` has 32 bits: it is not the
case that the channelID of the derived header holds every integer it is
given (2147483648 is held as -2147483648), nor that ssid holds every string
it is given (a string with a NUL inside is held up to the NUL). -/
theorem round_trip_fails_outside_range :
    (¬ ∀ c : Int,
        (decls (copyAndEdit secrets_TEMPLATE "MyWiFi" "hunter2" "my-thing" c "ABCD1234")).map
            (heldValue 32) =
          [ Literal.str "MyWiFi", Literal.str "hunter2", Literal.str "my-thing",
            Literal.int c, Literal.str "ABCD1234" ]) ∧
    (¬ ∀ s : String,
        (decls (copyAndEdit secrets_TEMPLATE s "hunter2" "my-thing" 42 "ABCD1234")).map
            (heldValue 32) =
          [ Literal.str s, Literal.str "hunter2", Literal.str "my-thing",
            Literal.int 42, Literal.str "ABCD1234" ]) := by
  constructor
  · intro h
    have h1 := h 2147483648
    rw [decls_copyAndEdit] at h1
    simp [heldValue, storeInt] at h1
  · intro h
    have h1 := h (String.mk [Char.ofNat 77, nul, Char.ofNat 121])
    rw [decls_copyAndEdit] at h1
    revert h1
    decide

/-- C3, amended: on a target whose `int` has `w` bits, for every four strings
without a NUL character and every integer in the range of `int`
(-2^(w-1) <= c < 2^(w-1)), the derived header declares the same five names
with the same types as the template, each declaration is initialised with
the new value and holds exactly the new value; deriving with the template's
own values gives back the template. -/
theorem copyAndEdit_round_trip (w : Nat) (s p d : String) (c : Int) (k : String)
    (hw : 0 < w) (hlo : -(2 : Int) ^ (w - 1) ≤ c) (hhi : c < (2 : Int) ^ (w - 1))
    (hs : nul ∉ s.toList) (hp : nul ∉ p.toList) (hd : nul ∉ d.toList)
    (hk : nul ∉ k.toList) :
    (decls (copyAndEdit secrets_TEMPLATE s p d c k)).map (fun x => x.name) =
      (decls secrets_TEMPLATE).map (fun x => x.name) ∧
    (decls (copyAndEdit secrets_TEMPLATE s p d c k)).map (fun x => x.ty) =
      (decls secrets_TEMPLATE).map (fun x => x.ty) ∧
    (decls (copyAndEdit secrets_TEMPLATE s p d c k)).map (fun x => x.init) =
      [Literal.str s, Literal.str p, Literal.str d, Literal.int c, Literal.str k] ∧
    (decls (copyAndEdit secrets_TEMPLATE s p d c k)).map (heldValue w) =
      [Literal.str s, Literal.str p, Literal.str d, Literal.int c, Literal.str k] ∧
    copyAndEdit secrets_TEMPLATE "YOUR_SSID_GOES_HERE" "YOUR_WIFI_PASSWORD_GOES_HERE"
      "DWEET_THING_NAME" 1234567 "CHANNELWRITEAPIKEY" = secrets_TEMPLATE := by
  rw [decls_copyAndEdit]
  refine ⟨rfl, rfl, rfl, ?_, ?_⟩
  · simp [heldValue, storeInt_of_inRange w c hw hlo hhi, cText_of_no_nul s hs,
      cText_of_no_nul p hp, cText_of_no_nul d hd, cText_of_no_nul k hk]
  · simp [copyAndEdit, setInit, setInitItem, secrets_TEMPLATE, ssid, password,
      dweetName, channelID, writeAPIKey]

/-- C3 at the values the spec names, on the 32-bit `int` of the Feather
Huzzah: "MyWiFi", "hunter2", "my-thing", 42, "ABCD1234". -/
theorem copyAndEdit_round_trip_witness :
    (decls (copyAndEdit secrets_TEMPLATE "MyWiFi" "hunter2" "my-thing" 42 "ABCD1234")).map
        (fun x => x.name) = (decls secrets_TEMPLATE).map (fun x => x.name) ∧
    (decls (copyAndEdit secrets_TEMPLATE "MyWiFi" "hunter2" "my-thing" 42 "ABCD1234")).map
        (fun x => x.ty) = (decls secrets_TEMPLATE).map (fun x => x.ty) ∧
    (decls (copyAndEdit secrets_TEMPLATE "MyWiFi" "hunter2" "my-thing" 42 "ABCD1234")).map
        (fun x => x.init) =
      [ Literal.str "MyWiFi", Literal.str "hunter2", Literal.str "my-thing",
        Literal.int 42, Literal.str "ABCD1234" ] ∧
    (decls (copyAndEdit secrets_TEMPLATE "MyWiFi" "hunter2" "my-thing" 42 "ABCD1234")).map
        (heldValue 32) =
      [ Literal.str "MyWiFi", Literal.str "hunter2", Literal.str "my-thing",
        Literal.int 42, Literal.str "ABCD1234" ] ∧
    copyAndEdit secrets_TEMPLATE "YOUR_SSID_GOES_HERE" "YOUR_WIFI_PASSWORD_GOES_HERE"
      "DWEET_THING_NAME" 1234567 "CHANNELWRITEAPIKEY" = secrets_TEMPLATE :=
  copyAndEdit_round_trip 32 "MyWiFi" "hunter2" "my-thing" 42 "ABCD1234"
    (by decide) (by decide) (by decide) (by decide) (by decide) (by decide) (by decide)

/-- C4: the channelID placeholder of the template is the integer 1234567,
and that integer is positive. -/
theorem channelID_placeholder_positive :
    ∃ n : Int, initOf "channelID" (decls secrets_TEMPLATE) = some (Literal.int n) ∧
      n = 1234567 ∧ 0 < n :=
  ⟨1234567, by decide, rfl, by decide⟩

/-- C5, as stated, fails: it is not the case that every declaration of the
template is a constant object that no assignment can change (writeAPIKey is a
plain `String` variable). -/
theorem not_every_value_is_constant :
    ¬ (∀ d ∈ decls secrets_TEMPLATE,
        isConstObject d.ty = true ∧
        ∀ v : Literal, assign d.name v (decls secrets_TEMPLATE) = none) := by
  intro h
  exact absurd (h writeAPIKey (by decide)).1 (by decide)

/-- C5, amended: in the template and in every header derived from it, only
channelID is a constant object, and every assignment to it is rejected; ssid,
password and dweetName are non-const pointers to const characters and
writeAPIKey is a non-const `String`, and assigning a new string to any of
these four is accepted and changes the value the variable holds. -/
theorem only_channelID_is_constant (s p d : String) (c : Int) (k : String) (t : String) :
    (decls (copyAndEdit secrets_TEMPLATE s p d c k)).map
        (fun x => (x.name, isConstObject x.ty, pointsToConst x.ty)) =
      [ ("ssid", false, true), ("password", false, true), ("dweetName", false, true),
        ("channelID", true, false), ("writeAPIKey", false, false) ] ∧
    (∀ v : Literal, assign "channelID" v (decls (copyAndEdit secrets_TEMPLATE s p d c k)) = none) ∧
    (assign "ssid" (Literal.str t) (decls (copyAndEdit secrets_TEMPLATE s p d c k))).bind
        (initOf "ssid") = some (Literal.str t) ∧
    (assign "password" (Literal.str t) (decls (copyAndEdit secrets_TEMPLATE s p d c k))).bind
        (initOf "password") = some (Literal.str t) ∧
    (assign "dweetName" (Literal.str t) (decls (copyAndEdit secrets_TEMPLATE s p d c k))).bind
        (initOf "dweetName") = some (Literal.str t) ∧
    (assign "writeAPIKey" (Literal.str t) (decls (copyAndEdit secrets_TEMPLATE s p d c k))).bind
        (initOf "writeAPIKey") = some (Literal.str t) := by
  rw [decls_copyAndEdit]
  refine ⟨rfl, fun v => ?_, ?_, ?_, ?_, ?_⟩ <;>
    simp [assign, typeOf, isConstObject, kindOf, constCharPtr, constInt, arduinoString,
      Literal.kind, setValue, initOf]

/-- C6: the header contains no check, so it admits every configuration
whatsoever; in particular every header derived from four strings and one
integer is accepted, and so are the unedited template, empty strings, and a
zero or negative channelID. -/
theorem no_validation (s p d : String) (c : Int) (k : String) (cfg : List Decl) :
    checks secrets_TEMPLATE = [] ∧
    admits secrets_TEMPLATE cfg = true ∧
    accepted (copyAndEdit secrets_TEMPLATE s p d c k) = true ∧
    accepted secrets_TEMPLATE = true ∧
    accepted (copyAndEdit secrets_TEMPLATE "" "" "" 0 "") = true ∧
    accepted (copyAndEdit secrets_TEMPLATE "" "" "" (-1) "") = true := by
  refine ⟨rfl, rfl, ?_, rfl, ?_, ?_⟩ <;> simp [accepted, admits, checks_copyAndEdit]

/-- C7: 0 < 1234567 <= 2^31 - 1 and a 32-bit `int` holds the channelID
literal unchanged; 1234567 > 2^15 - 1 and a 16-bit `int` holds -10617
instead; every `int` of at least 32 bits holds the literal exactly, and among
the machine integer widths (8, 16, 32, 64, every power of two) the literal is
held exactly only by those of at least 32 bits. -/
theorem channelID_exact_only_from_32_bits (k n : Nat) :
    ((0 : Int) < 1234567 ∧ (1234567 : Int) ≤ 2 ^ 31 - 1) ∧
    storedValue 32 channelID = some 1234567 ∧
    (1234567 : Int) > 2 ^ 15 - 1 ∧
    storedValue 16 channelID = some (-10617) ∧
    storedValue (32 + n) channelID = some 1234567 ∧
    (storedValue (intWidth k) channelID = some 1234567 ↔ 32 ≤ intWidth k) := by
  refine ⟨by decide, by decide, by decide, by decide, ?_, ?_⟩
  · exact (storedValue_channelID_iff (32 + n)).2 (by omega)
  · rw [storedValue_channelID_iff, intWidth]
    rcases Nat.lt_or_ge k 5 with hk | hk
    · interval_cases k <;> simp
    · have h5 : 2 ^ 5 ≤ 2 ^ k := Nat.pow_le_pow_right (by norm_num) hk
      constructor <;> intro _ <;> omega

end FeatherAQI
